import Mathlib

/-!
Verification development for the SHIELD backup plugins: the cassandra
plugin (snapshot staging and streaming archive pipeline) and the
xtrabackup plugin (restore sequencer with ownership normalization).

Keyspace and file names are modelled as lists of characters, compared
byte-wise exactly as Go compares strings.
-/

namespace Shield

/-- Name is an on-disk directory or file name, a Go string. -/
abbrev Name := List Char

/-- Go string comparison a < b, byte-wise lexicographic. -/
def lexLt : Name → Name → Bool
  | [], [] => false
  | [], _ :: _ => true
  | _ :: _, [] => false
  | a :: as, b :: bs =>
    if a < b then true
    else if b < a then false
    else lexLt as bs

/-- Go string comparison a >= b, as used by sort.SearchStrings. -/
def lexGe (a b : Name) : Bool := ! lexLt a b

/-- Go sort.Search loop body: binary search for the smallest index i in
[lo, hi) with f i = true, assuming f monotone; on non-monotone f it still
runs the same probes.  Fuel-indexed rendition of the for-loop. -/
def goSearchAux (f : Nat → Bool) : Nat → Nat → Nat → Nat
  | 0, lo, _ => lo
  | fuel + 1, lo, hi =>
    if lo < hi then
      let h := (lo + hi) / 2
      if f h then goSearchAux f fuel lo h
      else goSearchAux f fuel (h + 1) hi
    else lo

/-- Go sort.Search over indices 0..n. -/
def goSearch (n : Nat) (f : Nat → Bool) : Nat := goSearchAux f n 0 n

/-- Go sort.SearchStrings: binary search in slice a for x, probing with
the a[i] >= x test.  The Go documentation requires a to be sorted
ascending; the function itself runs regardless. -/
def searchStrings (a : List Name) (x : Name) : Nat :=
  goSearch a.length (fun i => lexGe (a.getD i []) x)

/-- Insertion of one name into a list sorted by lexLt-or-equal. -/
def insertName (x : Name) : List Name → List Name
  | [] => [x]
  | y :: ys => if lexLt x y then x :: y :: ys else y :: insertName x ys

/-- Go sort.Strings: sorts a string slice ascending (modelled by
insertion sort; equal names are identical so stability is moot). -/
def sortStrings : List Name → List Name
  | [] => []
  | x :: xs => insertName x (sortStrings xs)

/-- Membership test at plugin.go:306-309 and 405-416: idx :=
sort.SearchStrings(list, keyspace); hit iff idx in range and
list[idx] == keyspace. -/
def searchHit (list : List Name) (keyspace : Name) : Bool :=
  let idx := searchStrings list keyspace
  decide (idx < list.length) && (list.getD idx [] == keyspace)

/-- Loop at plugin.go:305-311.  For each included keyspace, a sorted-set
membership test against the exclude list drops matches; the source then
evaluates append(savedKeyspaces, keyspace) without using its result
(line 310), so the accumulator is never extended. -/
def savedKeyspacesLoop (excludeSorted : List Name) : List Name → List Name → List Name
  | [], acc => acc
  | keyspace :: rest, acc =>
    if searchHit excludeSorted keyspace then
      savedKeyspacesLoop excludeSorted rest acc
    else
      savedKeyspacesLoop excludeSorted rest acc

/-- Lines plugin.go:301-313: savedKeyspaces stays nil when no include
list is given; otherwise the exclude list is sorted in place, the loop
runs over the include list starting from an empty slice, and the result
is sorted. -/
def effectiveIncludeSet (includeKs : Option (List Name)) (excludeKs : List Name) :
    Option (List Name) :=
  match includeKs with
  | none => none
  | some inc => some (sortStrings (savedKeyspacesLoop (sortStrings excludeKs) inc []))

/-- Lines plugin.go:302-303: the exclude list is sorted only inside the
branch that runs when an include list is present.  This is the exclude
list as the traversal at line 405 sees it. -/
def excludeAsSeenByTraversal (includeKs : Option (List Name)) (excludeKs : List Name) :
    List Name :=
  match includeKs with
  | none => excludeKs
  | some _ => sortStrings excludeKs

/-- Keyspace selection during directory traversal, plugin.go:404-416:
with savedKeyspaces nil the keyspace is selected unless the exclude
membership test hits; with savedKeyspaces non-nil it is selected exactly
when the savedKeyspaces membership test hits. -/
def keyspaceSelected (savedKs : Option (List Name)) (excludeKs : List Name)
    (keyspace : Name) : Bool :=
  match savedKs with
  | none => ! searchHit excludeKs keyspace
  | some saved => searchHit saved keyspace

/-- Directory-traversal filter of the Backup path, plugin.go:399-422:
among the discovered keyspace directory names, those that pass
keyspaceSelected are hard-linked and archived. -/
def backupSelectedKeyspaces (savedKs : Option (List Name)) (excludeKs : List Name)
    (discovered : List Name) : List Name :=
  discovered.filter (keyspaceSelected savedKs excludeKs)

/-- Default exclude list from plugin.go:98, in its configured order. -/
def defaultExcludeKeyspaces : List Name :=
  ["system_schema".data, "system_distributed".data, "system_auth".data,
   "system".data, "system_traces".data]

/-! ## Table-name normalization and the snapshot linker -/

/-- Index of the last occurrence of the dash character in a name,
modelling strings.LastIndex(tableName, "-") at plugin.go:481. -/
def lastDashIndex : Name → Option Nat
  | [] => none
  | c :: rest =>
    match lastDashIndex rest with
    | some i => some (i + 1)
    | none => if c = '-' then some 0 else none

/-- Table-name normalization at plugin.go:480-483: when the name holds a
dash, keep only the prefix before the last dash; otherwise keep the name
unchanged. -/
def normalizeTableName (s : Name) : Name :=
  match lastDashIndex s with
  | some i => s.take i
  | none => s

/-- File type of a directory entry as Readdir reports it (lstat-based,
so a symbolic link is reported as a symlink, not as its target). -/
inductive FType
  | regular
  | dir
  | symlink
  deriving DecidableEq, Repr

/-- Directory entry: a name together with its lstat file type. -/
structure Entry where
  name : Name
  ftype : FType
  deriving DecidableEq, Repr

/-- Loop of hardLinkAll, plugin.go:517-528: walk the snapshot directory
entries in order, skip entries whose IsDir is true, and hard-link every
other entry (os.Link does not follow a symlink source); a failing link
aborts with the filesystem error.  Returns the linked names in order, or
none when a link fails. -/
def hardLinkAllLoop (linkFails : Name → Bool) : List Entry → List Name → Option (List Name)
  | [], acc => some acc
  | e :: rest, acc =>
    if e.ftype = FType.dir then hardLinkAllLoop linkFails rest acc
    else if linkFails e.name then none
    else hardLinkAllLoop linkFails rest (acc ++ [e.name])

/-- Entry point of hardLinkAll, plugin.go:502-530, with no injected link
failures. -/
def hardLinkAll (entries : List Entry) : Option (List Name) :=
  hardLinkAllLoop (fun _ => false) entries []

/-- Entry of a keyspace directory in the live data directory: its name,
whether it is a directory, and the entries of its snapshots subdirectory
for the fixed snapshot name when that subdirectory exists. -/
structure KEntry where
  name : Name
  isDir : Bool
  snapshot : Option (List Entry)
  deriving DecidableEq, Repr

/-- Call to hardLinkAll from hardLinkKeyspace, plugin.go:493 and
517-528, tracking destination paths: skip entries whose IsDir is true
and hard-link the rest into the destination table directory.  os.Link
fails when the destination path already exists, so linking a file name
already present in that table directory aborts with none.  Accumulates
(destination table name, file name) pairs in link order. -/
def linkSnapshotEntries (dstTable : Name) :
    List Entry → List (Name × Name) → Option (List (Name × Name))
  | [], acc => some acc
  | e :: es, acc =>
    if e.ftype = FType.dir then linkSnapshotEntries dstTable es acc
    else if (dstTable, e.name) ∈ acc then none
    else linkSnapshotEntries dstTable es (acc ++ [(dstTable, e.name)])

/-- Loop of hardLinkKeyspace, plugin.go:467-497: skip non-directory
entries; skip table directories with no snapshot subdirectory for the
fixed snapshot name; normalize the table name; create the destination
table directory with MkdirAll, which tolerates an existing directory
(plugin.go:487); then link the snapshot entries into it. -/
def hardLinkKeyspaceLoop :
    List KEntry → List (Name × Name) → Option (List (Name × Name))
  | [], acc => some acc
  | t :: rest, acc =>
    if t.isDir = false then hardLinkKeyspaceLoop rest acc
    else
      match t.snapshot with
      | none => hardLinkKeyspaceLoop rest acc
      | some snapEntries =>
        match linkSnapshotEntries (normalizeTableName t.name) snapEntries acc with
        | none => none
        | some acc3 => hardLinkKeyspaceLoop rest acc3

/-- hardLinkKeyspace for one keyspace, plugin.go:448-499, starting from
an empty staging keyspace directory. -/
def hardLinkKeyspace (tables : List KEntry) : Option (List (Name × Name)) :=
  hardLinkKeyspaceLoop tables []

/-! ## The cassandra Backup and Restore pipelines as event traces

Each external command and staging filesystem step of plugin.go Backup
(lines 273-446) and Restore (lines 533-621) is an event; a failure
specification says which steps fail, and the pipeline function replays
the source's control flow, deferred calls included, producing the
returned status, the ordered event trace, and whether the staging root
/var/vcap/store/shield/cassandra exists at return. -/

/-- Event of a cassandra pipeline run.  removeStaging true is the
deferred cleanup removal of the staging root registered after the root
was created; removeStaging false is the pre-clean removal. -/
inductive BEv
  | clearSnapshot
  | createSnapshot
  | removeStaging (cleanup : Bool)
  | mkdirStaging
  | linkPhase
  | chownStaging
  | tarStream
  | tarExtract
  | readStaging
  | loadPhase
  deriving DecidableEq, Repr

/-- Failure specification for one Backup run: which fallible steps fail.
The two cleanup flags are for the deferred rm -rf of the staging root
(plugin.go:356-367) and the deferred clearsnapshot (plugin.go:289-299),
whose outcomes the source logs and discards. -/
structure BackupFail where
  failClearStale : Bool
  failCreateSnapshot : Bool
  failRemoveStale : Bool
  failMkdirStaging : Bool
  failLinkPhase : Bool
  failChown : Bool
  failTarStream : Bool
  failCleanupRemove : Bool
  failCleanupClear : Bool
  deriving DecidableEq, Repr

/-- Outcome of a pipeline run: ok is true exactly when a nil error is
returned to the plugin framework; stagingExists tells whether the
staging root exists immediately after return. -/
structure RunOutcome where
  ok : Bool
  trace : List BEv
  stagingExists : Bool
  deriving DecidableEq, Repr

/-- Backup pipeline, plugin.go:273-446.  Order of the source: clear any
stale store-side snapshot (280-287), register the deferred snapshot
clear (289-299), resolve the keyspace filter (301-313, pure), create
the store-side snapshot (315-328), remove any stale staging root
(337-346), create the staging root (348-354), register the deferred
staging removal (356-367), hard-link the snapshot files (377-423),
chown the staging tree (425-433), stream the tar archive (435-443).
Deferred calls run last-registered-first on every return. -/
def backupRun (f : BackupFail) (staleStaging : Bool) : RunOutcome :=
  if f.failClearStale then
    { ok := false, trace := [BEv.clearSnapshot], stagingExists := staleStaging }
  else if f.failCreateSnapshot then
    { ok := false
      trace := [BEv.clearSnapshot, BEv.createSnapshot, BEv.clearSnapshot]
      stagingExists := staleStaging }
  else if f.failRemoveStale then
    { ok := false
      trace := [BEv.clearSnapshot, BEv.createSnapshot, BEv.removeStaging false,
                BEv.clearSnapshot]
      stagingExists := staleStaging }
  else if f.failMkdirStaging then
    { ok := false
      trace := [BEv.clearSnapshot, BEv.createSnapshot, BEv.removeStaging false,
                BEv.mkdirStaging, BEv.clearSnapshot]
      stagingExists := false }
  else
    let fwd := [BEv.clearSnapshot, BEv.createSnapshot, BEv.removeStaging false,
                BEv.mkdirStaging]
    let cleanup := [BEv.removeStaging true, BEv.clearSnapshot]
    let stagingAfter := f.failCleanupRemove
    if f.failLinkPhase then
      { ok := false, trace := fwd ++ [BEv.linkPhase] ++ cleanup
        stagingExists := stagingAfter }
    else if f.failChown then
      { ok := false, trace := fwd ++ [BEv.linkPhase, BEv.chownStaging] ++ cleanup
        stagingExists := stagingAfter }
    else if f.failTarStream then
      { ok := false
        trace := fwd ++ [BEv.linkPhase, BEv.chownStaging, BEv.tarStream] ++ cleanup
        stagingExists := stagingAfter }
    else
      { ok := true
        trace := fwd ++ [BEv.linkPhase, BEv.chownStaging, BEv.tarStream] ++ cleanup
        stagingExists := stagingAfter }

/-- Failure specification for one cassandra Restore run. -/
structure RestoreFail where
  failRemoveStale : Bool
  failMkdirStaging : Bool
  failTarExtract : Bool
  failReadStaging : Bool
  failLoadPhase : Bool
  failCleanupRemove : Bool
  deriving DecidableEq, Repr

/-- Restore pipeline of the cassandra plugin, plugin.go:533-621: remove
any stale staging root (541-549), create it (551-557), register the
deferred staging removal (559-569), extract the archive into it
(571-578), read its keyspace directories (580-591), and run the
per-keyspace load loop (592-617).  The loop's keyspace filter reads a
variable the Restore function never defines (plugin.go:597), so the
whole loop is abstracted here as one fallible load phase; only the
staging lifecycle of this function is the subject of proof. -/
def restoreRun (f : RestoreFail) (staleStaging : Bool) : RunOutcome :=
  if f.failRemoveStale then
    { ok := false, trace := [BEv.removeStaging false], stagingExists := staleStaging }
  else if f.failMkdirStaging then
    { ok := false, trace := [BEv.removeStaging false, BEv.mkdirStaging]
      stagingExists := false }
  else
    let fwd := [BEv.removeStaging false, BEv.mkdirStaging]
    let cleanup := [BEv.removeStaging true]
    let stagingAfter := f.failCleanupRemove
    if f.failTarExtract then
      { ok := false, trace := fwd ++ [BEv.tarExtract] ++ cleanup
        stagingExists := stagingAfter }
    else if f.failReadStaging then
      { ok := false, trace := fwd ++ [BEv.tarExtract, BEv.readStaging] ++ cleanup
        stagingExists := stagingAfter }
    else if f.failLoadPhase then
      { ok := false
        trace := fwd ++ [BEv.tarExtract, BEv.readStaging, BEv.loadPhase] ++ cleanup
        stagingExists := stagingAfter }
    else
      { ok := true
        trace := fwd ++ [BEv.tarExtract, BEv.readStaging, BEv.loadPhase] ++ cleanup
        stagingExists := stagingAfter }

/-! ## The xtrabackup Restore sequencer (part_001:286-409) -/

/-- Status of the destination data directory as os.Lstat reports it. -/
inductive DirStat
  | missing
  | notDir
  | isDir
  deriving DecidableEq, Repr

/-- Event of one xtrabackup Restore run, in source order. -/
inductive XEv
  | checkStoreStopped
  | clearStaging
  | statDataDir
  | captureOwner
  | wipeDataDir
  | mkdirStaging
  | tarExtract
  | prepareBackup
  | moveBack
  | chownWalk
  | cleanupStaging
  deriving DecidableEq, Repr

/-- Entry of the destination data directory, with its owning uid/gid. -/
structure OwnedFile where
  path : Name
  owner : Nat × Nat
  deriving DecidableEq, Repr

/-- Environment and failure specification of one xtrabackup Restore run:
whether the mysqld process is running, the state and contents of the
destination data directory, the entries the move-back step writes into
it (with whatever owner the load tooling gives them), and which fallible
steps fail. -/
structure XEnv where
  storeRunning : Bool
  failClearStaging : Bool
  dataDirStat : DirStat
  dataDirOwner : Nat × Nat
  dataDirFiles : List OwnedFile
  failWipe : Bool
  failMkdirStaging : Bool
  failTarExtract : Bool
  failPrepareStep : Bool
  failMoveBack : Bool
  restoredFiles : List OwnedFile
  failChownWalk : Bool
  failFinalCleanup : Bool
  deriving DecidableEq, Repr

/-- Outcome of one xtrabackup Restore run: errReturned is true exactly
when a non-nil error is returned; dataDirFiles and dataDirOwner are the
destination data directory entries and its own uid/gid at return. -/
structure XOutcome where
  errReturned : Bool
  trace : List XEv
  dataDirFiles : List OwnedFile
  dataDirOwner : Nat × Nat
  deriving DecidableEq, Repr

/-- Restore sequencer of the xtrabackup plugin, part_001:286-409.
Source order: probe for a running mysqld with ps-grep (292-297) — the
probe command succeeds exactly when mysqld is running, and that branch
returns the err variable, which is nil at that point; clear any
pre-existing temporary backup directory (299-311); register the
deferred RemoveAll of that directory (312-314); Lstat the data
directory (317-326) — a failed Lstat returns its error, while the
not-a-directory branch returns the err variable, which is nil after the
successful Lstat; record the owning uid/gid from the stat result
(327-328); remove every immediate child of the data directory
(330-341); create the temporary backup directory (344-356); extract
the archive from stdin (358-365); run the prepare step (366-377); run
the move-back step that repopulates the data directory (379-390); walk
the data directory recursively and chown every entry to the recorded
uid/gid (391-406); return the result of the final RemoveAll (408),
after which the deferred RemoveAll also runs. -/
def xtraRestore (env : XEnv) : XOutcome :=
  if env.storeRunning then
    { errReturned := false, trace := [XEv.checkStoreStopped]
      dataDirFiles := env.dataDirFiles, dataDirOwner := env.dataDirOwner }
  else if env.failClearStaging then
    { errReturned := true, trace := [XEv.checkStoreStopped, XEv.clearStaging]
      dataDirFiles := env.dataDirFiles, dataDirOwner := env.dataDirOwner }
  else
    match env.dataDirStat with
    | DirStat.missing =>
      { errReturned := true
        trace := [XEv.checkStoreStopped, XEv.clearStaging, XEv.statDataDir,
                  XEv.cleanupStaging]
        dataDirFiles := env.dataDirFiles, dataDirOwner := env.dataDirOwner }
    | DirStat.notDir =>
      { errReturned := false
        trace := [XEv.checkStoreStopped, XEv.clearStaging, XEv.statDataDir,
                  XEv.cleanupStaging]
        dataDirFiles := env.dataDirFiles, dataDirOwner := env.dataDirOwner }
    | DirStat.isDir =>
      let recorded := env.dataDirOwner
      let pre := [XEv.checkStoreStopped, XEv.clearStaging, XEv.statDataDir,
                  XEv.captureOwner]
      if env.failWipe then
        { errReturned := true, trace := pre ++ [XEv.wipeDataDir, XEv.cleanupStaging]
          dataDirFiles := env.dataDirFiles, dataDirOwner := env.dataDirOwner }
      else if env.failMkdirStaging then
        { errReturned := true
          trace := pre ++ [XEv.wipeDataDir, XEv.mkdirStaging, XEv.cleanupStaging]
          dataDirFiles := [], dataDirOwner := env.dataDirOwner }
      else if env.failTarExtract then
        { errReturned := true
          trace := pre ++ [XEv.wipeDataDir, XEv.mkdirStaging, XEv.tarExtract,
                           XEv.cleanupStaging]
          dataDirFiles := [], dataDirOwner := env.dataDirOwner }
      else if env.failPrepareStep then
        { errReturned := true
          trace := pre ++ [XEv.wipeDataDir, XEv.mkdirStaging, XEv.tarExtract,
                           XEv.prepareBackup, XEv.cleanupStaging]
          dataDirFiles := [], dataDirOwner := env.dataDirOwner }
      else if env.failMoveBack then
        { errReturned := true
          trace := pre ++ [XEv.wipeDataDir, XEv.mkdirStaging, XEv.tarExtract,
                           XEv.prepareBackup, XEv.moveBack, XEv.cleanupStaging]
          dataDirFiles := [], dataDirOwner := env.dataDirOwner }
      else if env.failChownWalk then
        { errReturned := true
          trace := pre ++ [XEv.wipeDataDir, XEv.mkdirStaging, XEv.tarExtract,
                           XEv.prepareBackup, XEv.moveBack, XEv.chownWalk,
                           XEv.cleanupStaging]
          dataDirFiles := env.restoredFiles, dataDirOwner := env.dataDirOwner }
      else
        { errReturned := env.failFinalCleanup
          trace := pre ++ [XEv.wipeDataDir, XEv.mkdirStaging, XEv.tarExtract,
                           XEv.prepareBackup, XEv.moveBack, XEv.chownWalk,
                           XEv.cleanupStaging, XEv.cleanupStaging]
          dataDirFiles := env.restoredFiles.map (fun fl => { path := fl.path, owner := recorded })
          dataDirOwner := recorded }

/-- Sample environment: the store process is running. -/
def sampleRunningEnv : XEnv :=
  { storeRunning := true, failClearStaging := false, dataDirStat := DirStat.isDir
    dataDirOwner := (104, 107), dataDirFiles := [⟨"t.db".data, (104, 107)⟩]
    failWipe := false, failMkdirStaging := false, failTarExtract := false
    failPrepareStep := false, failMoveBack := false, restoredFiles := []
    failChownWalk := false, failFinalCleanup := false }

/-- Sample environment: the destination data directory path is present
but is not a directory. -/
def sampleNotDirEnv : XEnv :=
  { storeRunning := false, failClearStaging := false, dataDirStat := DirStat.notDir
    dataDirOwner := (104, 107), dataDirFiles := []
    failWipe := false, failMkdirStaging := false, failTarExtract := false
    failPrepareStep := false, failMoveBack := false, restoredFiles := []
    failChownWalk := false, failFinalCleanup := false }

/-- Sample environment: the destination data directory is missing. -/
def sampleMissingEnv : XEnv :=
  { storeRunning := false, failClearStaging := false, dataDirStat := DirStat.missing
    dataDirOwner := (104, 107), dataDirFiles := []
    failWipe := false, failMkdirStaging := false, failTarExtract := false
    failPrepareStep := false, failMoveBack := false, restoredFiles := []
    failChownWalk := false, failFinalCleanup := false }

/-- Sample environment: a fully successful restore run; the load tooling
writes files owned by root and by another uid, while the data directory
itself is owned by uid 104, gid 107. -/
def sampleCompleteEnv : XEnv :=
  { storeRunning := false, failClearStaging := false, dataDirStat := DirStat.isDir
    dataDirOwner := (104, 107), dataDirFiles := [⟨"old.db".data, (104, 107)⟩]
    failWipe := false, failMkdirStaging := false, failTarExtract := false
    failPrepareStep := false, failMoveBack := false
    restoredFiles := [⟨"r1.db".data, (0, 0)⟩, ⟨"r2.db".data, (33, 33)⟩]
    failChownWalk := false, failFinalCleanup := false }

/-! ## Helper lemmas -/

/-- Loop at plugin.go:305-311 leaves its accumulator unchanged: the
append result at line 310 is discarded in both branches. -/
theorem savedKeyspacesLoop_eq_acc (ex : List Name) :
    ∀ l acc, savedKeyspacesLoop ex l acc = acc := by
  intro l
  induction l with
  | nil => intro acc; rfl
  | cons k rest ih =>
    intro acc
    unfold savedKeyspacesLoop
    split <;> exact ih acc

/-- Names without a dash have no last-dash index. -/
theorem lastDashIndex_of_not_mem {s : Name} (h : '-' ∉ s) : lastDashIndex s = none := by
  induction s with
  | nil => rfl
  | cons c rest ih =>
    simp only [List.mem_cons, not_or] at h
    have hc : ¬ c = '-' := fun hcc => h.1 hcc.symm
    unfold lastDashIndex
    rw [ih h.2]
    simp [hc]

/-- When the tail after a dash holds no dash, the last-dash index is the
length of the part before that dash. -/
theorem lastDashIndex_append_dash {b : Name} (hb : '-' ∉ b) :
    ∀ a : Name, lastDashIndex (a ++ '-' :: b) = some a.length := by
  intro a
  induction a with
  | nil =>
    simp only [List.nil_append]
    unfold lastDashIndex
    rw [lastDashIndex_of_not_mem hb]
    simp
  | cons c a ih =>
    show lastDashIndex (c :: (a ++ '-' :: b)) = _
    unfold lastDashIndex
    rw [ih]
    simp

/-- With no injected link failures, the hardLinkAll loop links exactly
the non-directory entries, in directory order. -/
theorem hardLinkAllLoop_no_fail (entries : List Entry) :
    ∀ acc, hardLinkAllLoop (fun _ => false) entries acc =
      some (acc ++ (entries.filter (fun e => ! decide (e.ftype = FType.dir))).map Entry.name) := by
  induction entries with
  | nil => intro acc; simp [hardLinkAllLoop]
  | cons e rest ih =>
    intro acc
    unfold hardLinkAllLoop
    by_cases h : e.ftype = FType.dir
    · simp [h, ih]
    · simp [h, ih]

/-! ## Claim theorems -/

/-- C1: the claim states that with an include list present the effective
include set equals include minus exclude and that every such keyspace is
selected for linking.  In the source the result of append at
plugin.go:310 is discarded, so the computed effective include set is
always empty, and with an empty saved set the traversal membership test
at plugin.go:411 selects no keyspace at all: the concrete configuration
include = app, exclude = system yields the empty set instead of the
claimed set holding app. -/
theorem c1_include_filter_discards_all :
    (∀ inc exc, effectiveIncludeSet (some inc) exc = some []) ∧
    (∀ exc disc, backupSelectedKeyspaces (some []) exc disc = []) ∧
    effectiveIncludeSet (some ["app".data]) ["system".data] = some [] := by
  refine ⟨?_, ?_, by decide⟩
  · intro inc exc
    simp [effectiveIncludeSet, savedKeyspacesLoop_eq_acc, sortStrings]
  · intro exc disc
    simp [backupSelectedKeyspaces, keyspaceSelected, searchHit, searchStrings,
      goSearch, goSearchAux]

/-- C2: the claim states that a restore run invoked while the store
process is running fails with a PreconditionError before any destination
mutation.  In the source (part_001:292-297) the branch taken when the
probe finds mysqld running returns the err variable, which is nil at
that point, so restore() returns success; the destination data directory
is indeed left untouched, but no error is reported. -/
theorem c2_restore_running_store_returns_nil (env : XEnv)
    (h : env.storeRunning = true) :
    (xtraRestore env).errReturned = false ∧
    (xtraRestore env).trace = [XEv.checkStoreStopped] ∧
    (xtraRestore env).dataDirFiles = env.dataDirFiles ∧
    (xtraRestore env).dataDirOwner = env.dataDirOwner := by
  simp [xtraRestore, h]

/-- C2 witness: the theorem applied to a concrete environment with the
store process running. -/
theorem c2_restore_running_store_returns_nil_witness :
    sampleRunningEnv.storeRunning = true ∧
    ((xtraRestore sampleRunningEnv).errReturned = false ∧
     (xtraRestore sampleRunningEnv).trace = [XEv.checkStoreStopped] ∧
     (xtraRestore sampleRunningEnv).dataDirFiles = sampleRunningEnv.dataDirFiles ∧
     (xtraRestore sampleRunningEnv).dataDirOwner = sampleRunningEnv.dataDirOwner) :=
  ⟨rfl, c2_restore_running_store_returns_nil sampleRunningEnv rfl⟩

/-- C3 counterexample: in the run whose only failing step is the removal
of the pre-existing staging entry, the store-side snapshot clear and the
snapshot create are the first two trace events, so both destructive
store-side actions have already been performed when the run aborts —
refuting the claim that the run aborts before any such action. -/
theorem c3_staging_conflict_counterexample :
    (backupRun ⟨false, false, true, false, false, false, false, false, false⟩ true).ok
      = false ∧
    (backupRun ⟨false, false, true, false, false, false, false, false, false⟩ true).trace
      = [BEv.clearSnapshot, BEv.createSnapshot, BEv.removeStaging false,
         BEv.clearSnapshot] ∧
    BEv.createSnapshot ∈
      (backupRun ⟨false, false, true, false, false, false, false, false, false⟩
        true).trace.take 2 := by
  decide

/-- C3 as amended: when the pre-existing staging entry cannot be
removed, the backup run fails with the removal error and aborts before
any hard-linking, ownership change, or archiving — but only after the
store-side snapshot clear and snapshot create have been performed; the
deferred snapshot clear still runs on the way out. -/
theorem c3_snapshot_actions_precede_staging_conflict (f : BackupFail) (stale : Bool)
    (h1 : f.failClearStale = false) (h2 : f.failCreateSnapshot = false)
    (h3 : f.failRemoveStale = true) :
    (backupRun f stale).ok = false ∧
    (backupRun f stale).trace =
      [BEv.clearSnapshot, BEv.createSnapshot, BEv.removeStaging false,
       BEv.clearSnapshot] := by
  simp [backupRun, h1, h2, h3]

/-- C3 witness: the amended theorem applied to a concrete failure
specification whose staging pre-clean fails. -/
theorem c3_snapshot_actions_precede_staging_conflict_witness :
    (backupRun ⟨false, false, true, false, false, false, true, false, false⟩ false).ok
      = false ∧
    (backupRun ⟨false, false, true, false, false, false, true, false, false⟩ false).trace
      = [BEv.clearSnapshot, BEv.createSnapshot, BEv.removeStaging false,
         BEv.clearSnapshot] :=
  c3_snapshot_actions_precede_staging_conflict
    ⟨false, false, true, false, false, false, true, false, false⟩ false rfl rfl rfl

/-- C4: the claim states that with the include list absent the selected
partitions equal the discovered ones minus the exclude list, the exclude
list having been sorted once before the membership tests.  In the source
the sort at plugin.go:303 runs only inside the include-present branch,
so with the include list absent the traversal binary search at
plugin.go:405 probes the exclude list in its configured order: with the
plugin's own default exclude list, the keyspace system is selected for
linking even though it is listed, because the binary search on the
unsorted list misses it. -/
theorem c4_unsorted_exclude_misses_membership :
    backupSelectedKeyspaces none defaultExcludeKeyspaces ["system".data, "app".data]
      = ["system".data, "app".data] ∧
    "system".data ∈ defaultExcludeKeyspaces ∧
    excludeAsSeenByTraversal none defaultExcludeKeyspaces = defaultExcludeKeyspaces ∧
    sortStrings defaultExcludeKeyspaces ≠ defaultExcludeKeyspaces := by
  refine ⟨by decide, by decide, rfl, by decide⟩

/-- C5 counterexample: a backup run in which every forward step succeeds
but the deferred removal of the staging root fails completes normally
(its error is discarded at plugin.go:356-367), yet the staging tree
still exists after the run terminates — refuting the claim that the tree
never exists after a normally completed run. -/
theorem c5_staging_persists_counterexample :
    (backupRun ⟨false, false, false, false, false, false, false, true, false⟩ false).ok
      = true ∧
    (backupRun ⟨false, false, false, false, false, false, false, true, false⟩
      false).stagingExists = true := by
  decide

/-- C5 as amended: for every backup or restore run that reaches staging
preparation successfully — whether the run then completes normally or
any later step fails — the cleanup removal of the staging root is
attempted exactly once on the exit path, and the staging tree does not
exist after the run whenever that removal succeeds. -/
theorem c5_cleanup_attempted_once (f : BackupFail) (g : RestoreFail) (s1 s2 : Bool)
    (hb1 : f.failClearStale = false) (hb2 : f.failCreateSnapshot = false)
    (hb3 : f.failRemoveStale = false) (hb4 : f.failMkdirStaging = false)
    (hr1 : g.failRemoveStale = false) (hr2 : g.failMkdirStaging = false) :
    ((backupRun f s1).trace.count (BEv.removeStaging true) = 1 ∧
     (f.failCleanupRemove = false → (backupRun f s1).stagingExists = false)) ∧
    ((restoreRun g s2).trace.count (BEv.removeStaging true) = 1 ∧
     (g.failCleanupRemove = false → (restoreRun g s2).stagingExists = false)) := by
  obtain ⟨a1, a2, a3, a4, a5, a6, a7, a8, a9⟩ := f
  obtain ⟨b1, b2, b3, b4, b5, b6⟩ := g
  dsimp only at hb1 hb2 hb3 hb4 hr1 hr2
  subst hb1 hb2 hb3 hb4 hr1 hr2
  revert s1 s2 a5 a6 a7 a8 a9 b3 b4 b5 b6
  decide

/-- C5 witness: the amended theorem applied to a backup run whose chown
step fails and to a fully successful restore run, both started with a
stale staging tree present. -/
theorem c5_cleanup_attempted_once_witness :
    ((backupRun ⟨false, false, false, false, false, true, false, false, false⟩
        true).trace.count (BEv.removeStaging true) = 1 ∧
     (backupRun ⟨false, false, false, false, false, true, false, false, false⟩
        true).stagingExists = false) ∧
    ((restoreRun ⟨false, false, false, false, false, false⟩ true).trace.count
        (BEv.removeStaging true) = 1 ∧
     (restoreRun ⟨false, false, false, false, false, false⟩ true).stagingExists
        = false) := by
  have h := c5_cleanup_attempted_once
    ⟨false, false, false, false, false, true, false, false, false⟩
    ⟨false, false, false, false, false, false⟩ true true rfl rfl rfl rfl rfl rfl
  exact ⟨⟨h.1.1, h.1.2 rfl⟩, ⟨h.2.1, h.2.2 rfl⟩⟩

/-- C6: the claim states that a restore run whose destination data
directory is missing or not a directory fails with a PreconditionError
before any archive ingestion.  In the source (part_001:317-326) the
missing case does return the Lstat error before any ingestion, but the
not-a-directory branch returns the err variable, which is nil after the
successful Lstat, so restore() returns success there; in both cases no
ingestion or load is attempted and the destination is untouched. -/
theorem c6_datadir_not_directory_returns_nil (env env2 : XEnv)
    (h1 : env.storeRunning = false) (h2 : env.failClearStaging = false)
    (h3 : env.dataDirStat = DirStat.notDir)
    (g1 : env2.storeRunning = false) (g2 : env2.failClearStaging = false)
    (g3 : env2.dataDirStat = DirStat.missing) :
    ((xtraRestore env).errReturned = false ∧
     XEv.tarExtract ∉ (xtraRestore env).trace ∧
     (xtraRestore env).dataDirFiles = env.dataDirFiles) ∧
    ((xtraRestore env2).errReturned = true ∧
     XEv.tarExtract ∉ (xtraRestore env2).trace ∧
     (xtraRestore env2).dataDirFiles = env2.dataDirFiles) := by
  constructor
  · simp [xtraRestore, h1, h2, h3]
  · simp [xtraRestore, g1, g2, g3]

/-- C6 witness: the theorem applied to concrete environments whose data
directory is a regular file, and missing, respectively. -/
theorem c6_datadir_not_directory_returns_nil_witness :
    (sampleNotDirEnv.dataDirStat = DirStat.notDir ∧
     sampleMissingEnv.dataDirStat = DirStat.missing) ∧
    (((xtraRestore sampleNotDirEnv).errReturned = false ∧
      XEv.tarExtract ∉ (xtraRestore sampleNotDirEnv).trace ∧
      (xtraRestore sampleNotDirEnv).dataDirFiles = sampleNotDirEnv.dataDirFiles) ∧
     ((xtraRestore sampleMissingEnv).errReturned = true ∧
      XEv.tarExtract ∉ (xtraRestore sampleMissingEnv).trace ∧
      (xtraRestore sampleMissingEnv).dataDirFiles = sampleMissingEnv.dataDirFiles)) :=
  ⟨⟨rfl, rfl⟩,
   c6_datadir_not_directory_returns_nil sampleNotDirEnv sampleMissingEnv
     rfl rfl rfl rfl rfl rfl⟩

/-- C7 counterexample: on a snapshot directory holding a regular file
and a symbolic link, the linker links both entries — the loop at
plugin.go:517-528 skips only entries whose IsDir is true — so the linked
set differs from the regular-files-only set the claim describes. -/
theorem c7_symlink_linked_counterexample :
    hardLinkAll [⟨"f1.db".data, FType.regular⟩, ⟨"lnk".data, FType.symlink⟩]
      = some ["f1.db".data, "lnk".data] ∧
    ["f1.db".data, "lnk".data] ≠ ["f1.db".data] := by decide

/-- C7 as amended: exactly the non-directory entries directly inside the
snapshot subdirectory are hard-linked; nested-directory entries are
skipped, and symbolic-link entries are not followed but are themselves
passed to link and linked.  Stated for snapshot directories with
pairwise-distinct entry names: an entry's name appears among the linked
names exactly when the entry is not a directory. -/
theorem c7_links_exactly_nondirectory_entries (entries : List Entry)
    (hnd : (entries.map Entry.name).Nodup) (e : Entry) (he : e ∈ entries) :
    ∃ linked, hardLinkAll entries = some linked ∧
      (e.name ∈ linked ↔ e.ftype ≠ FType.dir) := by
  refine ⟨(entries.filter (fun x => ! decide (x.ftype = FType.dir))).map Entry.name,
    ?_, ?_, ?_⟩
  · unfold hardLinkAll
    rw [hardLinkAllLoop_no_fail]
    simp
  · intro hmem
    rw [List.mem_map] at hmem
    obtain ⟨e2, he2, hname⟩ := hmem
    have he2e : e2 ∈ entries := List.mem_of_mem_filter he2
    have : e2 = e := List.inj_on_of_nodup_map hnd he2e he hname
    subst this
    have := List.of_mem_filter he2
    simpa using this
  · intro hft
    rw [List.mem_map]
    exact ⟨e, List.mem_filter.2 ⟨he, by simpa using hft⟩, rfl⟩

/-- C7 witness: the amended theorem applied to a concrete snapshot
directory with a regular file, a symbolic link and a subdirectory,
instantiated at the symbolic-link entry. -/
theorem c7_links_exactly_nondirectory_entries_witness :
    ((([⟨"f.db".data, FType.regular⟩, ⟨"s.ln".data, FType.symlink⟩,
        ⟨"sub".data, FType.dir⟩] : List Entry).map Entry.name).Nodup) ∧
    (⟨"s.ln".data, FType.symlink⟩ : Entry) ∈
      ([⟨"f.db".data, FType.regular⟩, ⟨"s.ln".data, FType.symlink⟩,
        ⟨"sub".data, FType.dir⟩] : List Entry) ∧
    ∃ linked,
      hardLinkAll [⟨"f.db".data, FType.regular⟩, ⟨"s.ln".data, FType.symlink⟩,
        ⟨"sub".data, FType.dir⟩] = some linked ∧
      (("s.ln".data ∈ linked) ↔ FType.symlink ≠ FType.dir) :=
  ⟨by decide, by decide,
   c7_links_exactly_nondirectory_entries _ (by decide)
     ⟨"s.ln".data, FType.symlink⟩ (by decide)⟩

/-- C8: in every restore run that reaches completion, the destination
data directory's owning uid and gid are recorded at the stat step, which
the trace places strictly before the wipe of the directory's children,
and after the move-back step has repopulated the directory the recursive
chown walk sets every entry's ownership — and the directory's own — to
the recorded pair (part_001:316-342 and 391-404). -/
theorem c8_ownership_captured_and_reapplied (env : XEnv)
    (h1 : env.storeRunning = false) (h2 : env.failClearStaging = false)
    (h3 : env.dataDirStat = DirStat.isDir) (h4 : env.failWipe = false)
    (h5 : env.failMkdirStaging = false) (h6 : env.failTarExtract = false)
    (h7 : env.failPrepareStep = false) (h8 : env.failMoveBack = false)
    (h9 : env.failChownWalk = false) :
    (xtraRestore env).trace =
      [XEv.checkStoreStopped, XEv.clearStaging, XEv.statDataDir, XEv.captureOwner,
       XEv.wipeDataDir, XEv.mkdirStaging, XEv.tarExtract, XEv.prepareBackup,
       XEv.moveBack, XEv.chownWalk, XEv.cleanupStaging, XEv.cleanupStaging] ∧
    (xtraRestore env).dataDirOwner = env.dataDirOwner ∧
    ∀ fl ∈ (xtraRestore env).dataDirFiles, fl.owner = env.dataDirOwner := by
  refine ⟨?_, ?_, ?_⟩
  · simp [xtraRestore, h1, h2, h3, h4, h5, h6, h7, h8, h9]
  · simp [xtraRestore, h1, h2, h3, h4, h5, h6, h7, h8, h9]
  · intro fl hfl
    simp only [xtraRestore, h1, h2, h3, h4, h5, h6, h7, h8, h9] at hfl
    simp at hfl
    obtain ⟨g, hg, rfl⟩ := hfl
    rfl

/-- C8 witness: the theorem applied to a concrete fully successful run
whose load tooling writes files owned by root and by uid 33, while the
data directory is owned by uid 104, gid 107. -/
theorem c8_ownership_captured_and_reapplied_witness :
    (sampleCompleteEnv.dataDirStat = DirStat.isDir ∧
     sampleCompleteEnv.dataDirOwner = (104, 107)) ∧
    ((xtraRestore sampleCompleteEnv).trace =
      [XEv.checkStoreStopped, XEv.clearStaging, XEv.statDataDir, XEv.captureOwner,
       XEv.wipeDataDir, XEv.mkdirStaging, XEv.tarExtract, XEv.prepareBackup,
       XEv.moveBack, XEv.chownWalk, XEv.cleanupStaging, XEv.cleanupStaging] ∧
     (xtraRestore sampleCompleteEnv).dataDirOwner = sampleCompleteEnv.dataDirOwner ∧
     ∀ fl ∈ (xtraRestore sampleCompleteEnv).dataDirFiles,
       fl.owner = sampleCompleteEnv.dataDirOwner) :=
  ⟨⟨rfl, rfl⟩,
   c8_ownership_captured_and_reapplied sampleCompleteEnv
     rfl rfl rfl rfl rfl rfl rfl rfl rfl⟩

/-- C9: the staged table directory name equals the live name with the
text after the last dash separator, and the separator itself, stripped,
and a name with no dash is unchanged: whenever the live name splits as a
part, a dash, and a dash-free tail, normalization yields the part before
that dash; a dash-free name maps to itself; in particular
users-a1b2c3d4 normalizes to users and orders to orders. -/
theorem c9_table_name_normalization :
    (∀ a b : Name, '-' ∉ b → normalizeTableName (a ++ '-' :: b) = a) ∧
    (∀ s : Name, '-' ∉ s → normalizeTableName s = s) ∧
    normalizeTableName "users-a1b2c3d4".data = "users".data ∧
    normalizeTableName "orders".data = "orders".data := by
  refine ⟨?_, ?_, by decide, by decide⟩
  · intro a b hb
    unfold normalizeTableName
    rw [lastDashIndex_append_dash hb a]
    exact List.take_left a ('-' :: b)
  · intro s hs
    unfold normalizeTableName
    rw [lastDashIndex_of_not_mem hs]

/-- C9 witness: the theorem applied to the concrete split of
users-a1b2c3d4 and to the dash-free name orders. -/
theorem c9_table_name_normalization_witness :
    ('-' ∉ "a1b2c3d4".data ∧
      normalizeTableName ("users".data ++ '-' :: "a1b2c3d4".data) = "users".data) ∧
    ('-' ∉ "orders".data ∧ normalizeTableName "orders".data = "orders".data) :=
  ⟨⟨by decide, c9_table_name_normalization.1 "users".data "a1b2c3d4".data (by decide)⟩,
   ⟨by decide, c9_table_name_normalization.2.1 "orders".data (by decide)⟩⟩

/-- C10: table-name normalization is not injective — the distinct live
names users-a1b2c3d4 and users both normalize to users — and during
backup the snapshot files of two such tables are linked into the same
staging table directory, the second directory creation succeeding
because MkdirAll tolerates an existing directory (plugin.go:487). -/
theorem c10_normalization_not_injective :
    "users-a1b2c3d4".data ≠ "users".data ∧
    normalizeTableName "users-a1b2c3d4".data = normalizeTableName "users".data ∧
    hardLinkKeyspace
      [⟨"users-a1b2c3d4".data, true, some [⟨"f1.db".data, FType.regular⟩]⟩,
       ⟨"users".data, true, some [⟨"f2.db".data, FType.regular⟩]⟩]
      = some [("users".data, "f1.db".data), ("users".data, "f2.db".data)] := by
  decide

end Shield
